import Mathlib

/-!
Shallow embedding of the OnedriveAudit reconciliation core.

The definitions below translate, structure by structure, the TypeScript
sources:
* `src/services/deltaProcessor.ts` (DeltaProcessorService),
* `src/services/graphClient.ts` (GraphClientService.queryDeltaComplete),
* `src/services/subscriptionService.ts` (SubscriptionService),
* `src/services/webhookSubscriptionRepository.ts`,
* the repository modules `DriveItemRepository`, `ChangeEventRepository`,
  `DeltaStateRepository` backed by Prisma.

Database state becomes an explicit `Db` record threaded through the
functions; each `await`ed Prisma call in the source is one pure state
update here (every call is its own commit in the source — none of the
per-item calls run inside a transaction).  Provider responses are
parameters: a reconciliation pass receives the list of pages the delta
endpoint would return for the pass.
-/

namespace OnedriveAudit

/-- Prisma enum `ItemType`. -/
inductive ItemType where
  | FILE
  | FOLDER
deriving DecidableEq

/-- Prisma enum `EventType` (the processor emits the first four; `UPDATE`
is declared in the schema but never produced by `deltaProcessor.ts`). -/
inductive EventType where
  | CREATE
  | RENAME
  | MOVE
  | DELETE
  | UPDATE
deriving DecidableEq

/-- One row of the `DriveItem` table (fields per the Prisma schema:
id, itemId, driveId, name, itemType, path, parentId, isDeleted;
timestamps are not modelled). -/
structure DriveItemRec where
  id : Nat
  itemId : String
  driveId : String
  name : String
  itemType : ItemType
  path : String
  parentId : Option Nat
  isDeleted : Bool
deriving DecidableEq

/-- One row of the `ChangeEvent` table (fields per the Prisma schema;
the store-assigned id and timestamp are not modelled, rows are kept in
insertion order). -/
structure ChangeEventRec where
  driveItemId : Nat
  eventType : EventType
  oldName : Option String
  newName : Option String
  oldParentId : Option Nat
  newParentId : Option Nat
deriving DecidableEq

/-- One row of the `DeltaState` table (driveId unique, deltaToken). -/
structure DeltaStateRec where
  driveId : String
  deltaToken : String
deriving DecidableEq

/-- The relational store visible to the delta processor: the `DriveItem`
rows, the append-only `ChangeEvent` log (newest last), the `DeltaState`
rows, and the autoincrement counter for `DriveItem.id`. -/
structure Db where
  items : List DriveItemRec
  events : List ChangeEventRec
  deltaStates : List DeltaStateRec
  nextItemDbId : Nat
deriving DecidableEq

/-- `DriveItemRepository.findByItemId`: unique lookup by the Graph item id. -/
def findByItemId (itemId : String) (db : Db) : Option DriveItemRec :=
  db.items.find? (fun r => r.itemId == itemId)

/-- Argument record of `DriveItemRepository.upsert`. -/
structure UpsertItemData where
  itemId : String
  driveId : String
  name : String
  itemType : ItemType
  path : String
  parentId : Option Nat
deriving DecidableEq

/-- The `update` clause of `DriveItemRepository.upsert` applied to one row:
it sets name, itemType, path (and modifiedAt, not modelled).  `parentId`
is set only when the argument carries a value: the caller passes
`number | undefined`, and Prisma skips an update field whose value is
`undefined`, leaving the stored parent untouched.  `isDeleted` is never
touched. -/
def upsertUpdateRow (d : UpsertItemData) (r : DriveItemRec) : DriveItemRec :=
  if r.itemId == d.itemId then
    { r with
        name := d.name
        itemType := d.itemType
        path := d.path
        parentId := match d.parentId with | some p => some p | none => r.parentId }
  else r

/-- `DriveItemRepository.upsert`: update the row keyed by `itemId` if it
exists (leaving `isDeleted` as it was), otherwise create a fresh row with
`isDeleted = false`; returns the resulting row together with the store. -/
def upsertItem (d : UpsertItemData) (db : Db) : DriveItemRec × Db :=
  match db.items.find? (fun r => r.itemId == d.itemId) with
  | some r =>
      (upsertUpdateRow d r,
       { db with items := db.items.map (upsertUpdateRow d) })
  | none =>
      let r : DriveItemRec :=
        { id := db.nextItemDbId, itemId := d.itemId, driveId := d.driveId,
          name := d.name, itemType := d.itemType, path := d.path,
          parentId := d.parentId, isDeleted := false }
      (r, { db with items := db.items ++ [r], nextItemDbId := db.nextItemDbId + 1 })

/-- Modelled from the spec: `deltaProcessor.ts` line 111 calls
`driveItemRepository.markAsDeleted(existingItem.id)`, but no method of
that name exists in the `DriveItemRepository` source (the repository
defines `markDeleted(itemId: string)`, keyed by the external id, while
the call passes the internal numeric id).  The missing callee is
modelled from spec §4.1 `mark_deleted(internal_id)`: set the deleted
flag on the item with the given internal id. -/
def markAsDeleted (internalId : Nat) (db : Db) : Db :=
  { db with items := db.items.map (fun r =>
      if r.id == internalId then { r with isDeleted := true } else r) }

/-- `ChangeEventRepository.insert`: append one change event. -/
def insertEvent (e : ChangeEventRec) (db : Db) : Db :=
  { db with events := db.events ++ [e] }

/-- `DeltaStateRepository.findByDriveId`. -/
def findDeltaState (driveId : String) (db : Db) : Option DeltaStateRec :=
  db.deltaStates.find? (fun s => s.driveId == driveId)

/-- The delta token currently stored for a drive (the cursor). -/
def getDeltaToken (driveId : String) (db : Db) : Option String :=
  (findDeltaState driveId db).map (fun s => s.deltaToken)

/-- The `update` clause of `DeltaStateRepository.updateDeltaToken`
applied to one row: replace the token of the row keyed by `driveId`. -/
def deltaTokenUpdateRow (driveId deltaToken : String) (s : DeltaStateRec) :
    DeltaStateRec :=
  if s.driveId == driveId then { s with deltaToken := deltaToken } else s

/-- `DeltaStateRepository.updateDeltaToken`: Prisma upsert keyed by
`driveId` — update the existing row's token or create a new row. -/
def updateDeltaToken (driveId deltaToken : String) (db : Db) : Db :=
  if db.deltaStates.any (fun s => s.driveId == driveId) then
    { db with deltaStates :=
        db.deltaStates.map (deltaTokenUpdateRow driveId deltaToken) }
  else
    { db with deltaStates :=
        db.deltaStates ++ [DeltaStateRec.mk driveId deltaToken] }

/-- `parentReference` of a Graph delta item. -/
structure ParentReference where
  id : Option String
  driveId : Option String
deriving DecidableEq

/-- Interface `DeltaItem` of `deltaProcessor.ts`: the fields of a Graph
delta entry the processor consumes.  The optional `file` / `folder` /
`deleted` facets are modelled by their presence. -/
structure DeltaItem where
  id : String
  name : String
  parentReference : Option ParentReference
  file : Bool
  folder : Bool
  deleted : Bool
deriving DecidableEq

/-- Interface `DetectedChange` of `deltaProcessor.ts`. -/
structure DetectedChange where
  itemId : String
  eventType : EventType
  oldName : Option String
  newName : Option String
  oldParentId : Option Nat
  newParentId : Option Nat
deriving DecidableEq

/-- Interface `DeltaProcessingResult` of `deltaProcessor.ts`. -/
structure DeltaProcessingResult where
  itemsProcessed : Nat
  changesDetected : Nat
  deltaToken : String
deriving DecidableEq

/-- One raw response of the delta endpoint (`queryDelta`): a page of
items plus at most one of `@odata.nextLink` / `@odata.deltaLink`. -/
structure DeltaPage where
  items : List DeltaItem
  deltaLink : Option String
  nextLink : Option String
deriving DecidableEq

/-- Result shape of `GraphClientService.queryDeltaComplete`. -/
structure DeltaQueryResult where
  items : List DeltaItem
  deltaLink : Option String
deriving DecidableEq

/-- The pagination loop of `GraphClientService.queryDeltaComplete`,
consuming the successive provider responses: accumulate items; follow
`nextLink` when present; otherwise stop, keeping `deltaLink` of the
terminal page when it carries one (the source breaks with no final
link when a page has neither link). -/
def queryDeltaCompleteGo : List DeltaPage → List DeltaItem → List DeltaItem × Option String
  | [], acc => (acc, none)
  | page :: rest, acc =>
      let acc' := acc ++ page.items
      if page.nextLink.isSome then
        queryDeltaCompleteGo rest acc'
      else
        match page.deltaLink with
        | some d => (acc', some d)
        | none => (acc', none)

/-- `GraphClientService.queryDeltaComplete` over the trace of pages the
provider returns for this pass. -/
def queryDeltaComplete (pages : List DeltaPage) : DeltaQueryResult :=
  let r := queryDeltaCompleteGo pages []
  { items := r.1, deltaLink := r.2 }

/-- The source's `existingItem.parentId !== newParentId` (JS strict
inequality): the stored side is Prisma's `number | null` (`none` = SQL
NULL) and the resolved side is `number | undefined` (`none` =
undefined).  In JavaScript `null !== undefined` holds and an absent
value on either side is unequal to any number, so the comparison is
false only when both sides carry the same number. -/
def parentStrictNe (stored resolved : Option Nat) : Bool :=
  match stored, resolved with
  | some m, some n => m != n
  | _, _ => true

/-- `DeltaProcessorService.detectChangeType`: classify an observed live
item against its stored row (tie-break: parent change dominates name
change).  `parentChanged` is the source's JS strict inequality between
the stored parent (`null` when absent) and the resolved parent
(`undefined` when absent), so two absent parents still count as a
parent change. -/
def detectChangeType (existingItem : DriveItemRec) (newItem : DeltaItem)
    (newParentId : Option Nat) : Option DetectedChange :=
  let nameChanged : Bool := existingItem.name != newItem.name
  let parentChanged : Bool := parentStrictNe existingItem.parentId newParentId
  if nameChanged && parentChanged then
    some { itemId := newItem.id, eventType := .MOVE,
           oldName := some existingItem.name, newName := some newItem.name,
           oldParentId := existingItem.parentId, newParentId := newParentId }
  else if nameChanged then
    some { itemId := newItem.id, eventType := .RENAME,
           oldName := some existingItem.name, newName := some newItem.name,
           oldParentId := none, newParentId := none }
  else if parentChanged then
    some { itemId := newItem.id, eventType := .MOVE,
           oldName := none, newName := none,
           oldParentId := existingItem.parentId, newParentId := newParentId }
  else
    none

/-- `DeltaProcessorService.buildPath`: the source returns `"/" + item.name`
(its comment: "Simplified implementation - in production, would traverse
parent hierarchy"). -/
def buildPath (item : DeltaItem) : String :=
  "/" ++ item.name

/-- Parent resolution of `processDeltaItem` (lines 137–141): when the
observed item carries a (truthy) `parentReference.id`, look the parent up
in the store and take its internal id. -/
def resolveParentId (item : DeltaItem) (db : Db) : Option Nat :=
  match item.parentReference with
  | some pr =>
      match pr.id with
      | some pid =>
          if pid == "" then none
          else (findByItemId pid db).map (fun p => p.id)
      | none => none
  | none => none

/-- `DeltaProcessorService.processDeltaItem`: apply one observed delta
item to the store, returning the detected change (if any) and the
post-state.  Each repository call of the source is one separate state
update here. -/
def processDeltaItem (item : DeltaItem) (driveId : String) (db : Db) :
    Option DetectedChange × Db :=
  let existingItem := findByItemId item.id db
  if item.deleted then
    match existingItem with
    | some prev =>
        let db1 := markAsDeleted prev.id db
        let db2 := insertEvent
          { driveItemId := prev.id, eventType := .DELETE,
            oldName := some prev.name, newName := none,
            oldParentId := none, newParentId := none } db1
        (some { itemId := item.id, eventType := .DELETE,
                oldName := some prev.name, newName := none,
                oldParentId := none, newParentId := none }, db2)
    | none => (none, db)
  else
    let itemType := if item.folder then ItemType.FOLDER else ItemType.FILE
    let path := buildPath item
    let parentId := resolveParentId item db
    match existingItem with
    | none =>
        let res := upsertItem
          { itemId := item.id, driveId := driveId, name := item.name,
            itemType := itemType, path := path, parentId := parentId } db
        let db2 := insertEvent
          { driveItemId := res.1.id, eventType := .CREATE,
            oldName := none, newName := some item.name,
            oldParentId := none, newParentId := parentId } res.2
        (some { itemId := item.id, eventType := .CREATE,
                oldName := none, newName := some item.name,
                oldParentId := none, newParentId := none }, db2)
    | some existing =>
        match detectChangeType existing item parentId with
        | some change =>
            let res := upsertItem
              { itemId := item.id, driveId := driveId, name := item.name,
                itemType := itemType, path := path, parentId := parentId } db
            let db2 := insertEvent
              { driveItemId := existing.id, eventType := change.eventType,
                oldName := change.oldName, newName := change.newName,
                oldParentId := change.oldParentId,
                newParentId := change.newParentId } res.2
            (some change, db2)
        | none => (none, db)

/-- Crash semantics of one apply-one-item step.  The source issues its
database writes as separate `await`ed Prisma calls, each its own commit;
this function is `processDeltaItem` stopped after the first `k` writes
(reads are free), modelling a step that fails between two commits.  For
`k ≥ 2` it coincides with the completed step. -/
def processDeltaItemAfterWrites (item : DeltaItem) (driveId : String) (db : Db)
    (k : Nat) : Db :=
  let existingItem := findByItemId item.id db
  if item.deleted then
    match existingItem with
    | some prev =>
        if k = 0 then db
        else
          let db1 := markAsDeleted prev.id db
          if k = 1 then db1
          else insertEvent
            { driveItemId := prev.id, eventType := .DELETE,
              oldName := some prev.name, newName := none,
              oldParentId := none, newParentId := none } db1
    | none => db
  else
    let itemType := if item.folder then ItemType.FOLDER else ItemType.FILE
    let path := buildPath item
    let parentId := resolveParentId item db
    match existingItem with
    | none =>
        if k = 0 then db
        else
          let res := upsertItem
            { itemId := item.id, driveId := driveId, name := item.name,
              itemType := itemType, path := path, parentId := parentId } db
          if k = 1 then res.2
          else insertEvent
            { driveItemId := res.1.id, eventType := .CREATE,
              oldName := none, newName := some item.name,
              oldParentId := none, newParentId := parentId } res.2
    | some existing =>
        match detectChangeType existing item parentId with
        | some change =>
            if k = 0 then db
            else
              let res := upsertItem
                { itemId := item.id, driveId := driveId, name := item.name,
                  itemType := itemType, path := path, parentId := parentId } db
              if k = 1 then res.2
              else insertEvent
                { driveItemId := existing.id, eventType := change.eventType,
                  oldName := change.oldName, newName := change.newName,
                  oldParentId := change.oldParentId,
                  newParentId := change.newParentId } res.2
        | none => db

/-- The per-item loop of `processDelta` (lines 76–82), with fatal-failure
injection: `failAt = some i` makes the processing of the i-th item fail
fatally (before any of its writes), aborting the pass; the error carries
the store as of the failure.  On success, returns the store and the
`changesDetected` count. -/
def runItems (driveId : String) (failAt : Option Nat) :
    List DeltaItem → Nat → Db → Nat → Except Db (Db × Nat)
  | [], _, db, count => .ok (db, count)
  | item :: rest, idx, db, count =>
      if failAt = some idx then .error db
      else
        let r := processDeltaItem item driveId db
        runItems driveId failAt rest (idx + 1) r.2
          (count + if r.1.isSome then 1 else 0)

/-- `DeltaProcessorService.processDelta`: read the stored cursor (passed
to the provider query, whose page trace is the `pages` parameter), apply
every returned item in order, then persist the final delta link — only
when the pagination produced one — and return the statistics.  A fatal
item failure propagates out before the cursor update. -/
def processDelta (pages : List DeltaPage) (failAt : Option Nat)
    (driveId : String) (db : Db) : Except Db (DeltaProcessingResult × Db) :=
  let deltaState := findDeltaState driveId db
  let _deltaLink := deltaState.map (fun s => s.deltaToken)
  let deltaResult := queryDeltaComplete pages
  match runItems driveId failAt deltaResult.items 0 db 0 with
  | .error dbe => .error dbe
  | .ok r =>
      let db2 :=
        match deltaResult.deltaLink with
        | some link => updateDeltaToken driveId link r.1
        | none => r.1
      .ok ({ itemsProcessed := deltaResult.items.length,
             changesDetected := r.2,
             deltaToken := deltaResult.deltaLink.getD "" }, db2)

/-- Process-wide environment consulted by `processDeltaBatch`:
`PROCESS_DELTA_ENABLED` and an oracle for the outcome of the OAuth token
validation probe. -/
structure Env where
  processDeltaEnabled : Bool
  tokenValid : Bool
deriving DecidableEq

/-- The world a reconciliation-worker invocation can observe and mutate:
the environment, the relational store, and a count of provider (Graph)
calls made, instrumenting "no provider call". -/
structure World where
  env : Env
  db : Db
  graphCalls : Nat
deriving DecidableEq

/-- The `processDeltaBatch` Azure Function (queue-triggered worker):
consult `isDeltaProcessingEnabled()` first and return untouched when
disabled; otherwise validate the token (one provider call; on invalid,
disable delta processing and return), resolve the drive id (one provider
call), run the delta query (one provider call per page) and process it.
Errors of the pass are rethrown (`.error`). -/
def processDeltaBatch (pages : List DeltaPage) (failAt : Option Nat)
    (driveId : String) (w : World) : Except World World :=
  if !w.env.processDeltaEnabled then .ok w
  else
    let w1 := { w with graphCalls := w.graphCalls + 1 }
    if !w.env.tokenValid then
      .ok { w1 with env := { w1.env with processDeltaEnabled := false } }
    else
      let w2 := { w1 with graphCalls := w1.graphCalls + 1 + pages.length }
      match processDelta pages failAt driveId w2.db with
      | .error dbe => .error { w2 with db := dbe }
      | .ok r => .ok { w2 with db := r.2 }

/-- Interface `WebhookSubscription` of `graphClient.ts` (a provider-side
subscription record; `expirationDateTime` as epoch milliseconds). -/
structure GraphSubscription where
  id : String
  resource : String
  changeType : String
  clientState : String
  notificationUrl : String
  expirationDateTime : Int
deriving DecidableEq

/-- Interface `WebhookSubscriptionConfig` of `graphClient.ts`. -/
structure WebhookSubscriptionConfig where
  changeType : String
  notificationUrl : String
  resource : String
  expirationDateTime : Int
  clientState : String
deriving DecidableEq

/-- One row of the `WebhookSubscription` table (id numeric primary key,
subscriptionId the provider's string id, per the Prisma schema). -/
structure WebhookSubscriptionRec where
  id : Nat
  subscriptionId : String
  resource : String
  clientState : String
  expiration : Int
deriving DecidableEq

/-- State touched by the subscription service: the provider's
subscription records, the local `WebhookSubscription` table, the provider
id chosen for the next created subscription, and the autoincrement
counter for local row ids. -/
structure SubWorld where
  graphSubs : List GraphSubscription
  dbSubs : List WebhookSubscriptionRec
  freshGraphId : String
  nextDbId : Nat
deriving DecidableEq

/-- `calculateExpirationDateTime` of `subscriptionService.ts`:
now + offsetMinutes minutes (both call sites use the default 4200). -/
def calculateExpirationDateTime (now : Int) (offsetMinutes : Int) : Int :=
  now + offsetMinutes * 60 * 1000

/-- `GraphClientService.getSubscription`: provider lookup by id,
404 becomes `none`. -/
def graphGetSubscription (subscriptionId : String) (w : SubWorld) :
    Option GraphSubscription :=
  w.graphSubs.find? (fun s => s.id == subscriptionId)

/-- `GraphClientService.updateSubscription`: PATCH the expiration of the
provider record; errors (no such record) become `none`. -/
def graphUpdateSubscription (subscriptionId : String) (expirationDateTime : Int)
    (w : SubWorld) : Option (GraphSubscription × SubWorld) :=
  match w.graphSubs.find? (fun s => s.id == subscriptionId) with
  | some s =>
      some ({ s with expirationDateTime := expirationDateTime },
            { w with graphSubs := w.graphSubs.map (fun t =>
                if t.id == subscriptionId then
                  { t with expirationDateTime := expirationDateTime }
                else t) })
  | none => none

/-- `GraphClientService.createSubscription`: the provider creates a
record (choosing `freshGraphId` as its id) and returns it. -/
def graphCreateSubscription (config : WebhookSubscriptionConfig)
    (w : SubWorld) : GraphSubscription × SubWorld :=
  let s : GraphSubscription :=
    { id := w.freshGraphId, resource := config.resource,
      changeType := config.changeType, clientState := config.clientState,
      notificationUrl := config.notificationUrl,
      expirationDateTime := config.expirationDateTime }
  (s, { w with graphSubs := w.graphSubs ++ [s] })

/-- `WebhookSubscriptionRepository.findByResource` (rows kept in the
stored order; the theorems below use a single matching row). -/
def findByResource (resource : String) (w : SubWorld) :
    List WebhookSubscriptionRec :=
  w.dbSubs.filter (fun s => s.resource == resource)

/-- `WebhookSubscriptionRepository.updateExpiration(subscriptionId, expiration)`:
Prisma `update` keyed by the string `subscriptionId` field; Prisma
rejects the call when no row matches (`none`). -/
def repoUpdateExpiration (subscriptionId : String) (expiration : Int)
    (w : SubWorld) : Option SubWorld :=
  if w.dbSubs.any (fun s => s.subscriptionId == subscriptionId) then
    some { w with dbSubs := w.dbSubs.map (fun s =>
        if s.subscriptionId == subscriptionId then
          { s with expiration := expiration }
        else s) }
  else none

/-- `WebhookSubscriptionRepository.delete(id)`: Prisma `delete` keyed by
the numeric primary key; rejects when no row matches. -/
def repoDelete (id : Nat) (w : SubWorld) : Option SubWorld :=
  if w.dbSubs.any (fun s => s.id == id) then
    some { w with dbSubs := w.dbSubs.filter (fun s => !(s.id == id)) }
  else none

/-- `WebhookSubscriptionRepository.upsert`: keyed by `subscriptionId`;
update the existing row or create a fresh one. -/
def repoUpsert (subscriptionId resource clientState : String)
    (expiration : Int) (w : SubWorld) : SubWorld :=
  if w.dbSubs.any (fun s => s.subscriptionId == subscriptionId) then
    { w with dbSubs := w.dbSubs.map (fun s =>
        if s.subscriptionId == subscriptionId then
          { s with resource := resource, clientState := clientState,
                   expiration := expiration }
        else s) }
  else
    { w with
      dbSubs := w.dbSubs ++
        [{ id := w.nextDbId, subscriptionId := subscriptionId,
           resource := resource, clientState := clientState,
           expiration := expiration }],
      nextDbId := w.nextDbId + 1 }

/-- `SubscriptionService.createSubscription`: create at the provider with
expiry now + 4200 minutes, then store the returned record locally. -/
def createSubscriptionSvc (notificationUrl resource : String) (now : Int)
    (webhookClientState : String) (w : SubWorld) :
    GraphSubscription × SubWorld :=
  let expirationDateTime := calculateExpirationDateTime now 4200
  let r := graphCreateSubscription
    { changeType := "updated", notificationUrl := notificationUrl,
      resource := resource, expirationDateTime := expirationDateTime,
      clientState := webhookClientState } w
  (r.1, repoUpsert r.1.id r.1.resource r.1.clientState
          r.1.expirationDateTime r.2)

/-- `SubscriptionService.ensureSubscription` with the drive id provided:
look up the local record for the resource; if the provider still has the
subscription, return it unchanged when more than 24 hours of life remain,
otherwise renew it to now + 4200 minutes and update the local row — the
source passes the numeric database id `dbSubscription.id` to
`updateExpiration`, whose Prisma filter is on the string `subscriptionId`
field (rendered here as `toString dbSubscription.id`); on provider 404,
delete the local row and create a fresh subscription.
`hoursUntilExpiration` is the source's
`(expirationTime - now) / (1000 * 60 * 60)` as an exact rational
(exact for the integer millisecond timestamps involved). -/
def ensureSubscription (notificationUrl driveId : String) (now : Int)
    (webhookClientState : String) (w : SubWorld) :
    Option (GraphSubscription × SubWorld) :=
  let resource := "/drives/" ++ driveId ++ "/root"
  match findByResource resource w with
  | dbSubscription :: _ =>
      match graphGetSubscription dbSubscription.subscriptionId w with
      | some graphSubscription =>
          let hoursUntilExpiration : ℚ :=
            mkRat (graphSubscription.expirationDateTime - now) (1000 * 60 * 60)
          if hoursUntilExpiration > 24 then
            some (graphSubscription, w)
          else
            let newExpiration := calculateExpirationDateTime now 4200
            match graphUpdateSubscription graphSubscription.id
                newExpiration w with
            | none => none
            | some r =>
                match repoUpdateExpiration (toString dbSubscription.id)
                    r.1.expirationDateTime r.2 with
                | none => none
                | some w2 => some (r.1, w2)
      | none =>
          match repoDelete dbSubscription.id w with
          | none => none
          | some w1 =>
              some (createSubscriptionSvc notificationUrl resource now
                webhookClientState w1)
  | [] =>
      some (createSubscriptionSvc notificationUrl resource now
        webhookClientState w)

/-! Outcome accessors for a reconciliation pass, and concrete inputs used
by the theorems below. -/

/-- Whether a reconciliation pass returned successfully. -/
def passSucceeded : Except Db (DeltaProcessingResult × Db) → Bool
  | .ok _ => true
  | .error _ => false

/-- The store after a reconciliation pass (on failure, the store as of
the failure). -/
def passOutcomeDb : Except Db (DeltaProcessingResult × Db) → Db
  | .ok p => p.2
  | .error d => d

/-- `changesDetected` of a successful pass (0 on failure). -/
def passChanges : Except Db (DeltaProcessingResult × Db) → Nat
  | .ok p => p.1.changesDetected
  | .error _ => 0

/-- An empty store. -/
def dbEmpty : Db :=
  { items := [], events := [], deltaStates := [], nextItemDbId := 1 }

/-- A freshly observed live file, unknown to the store. -/
def itemA : DeltaItem :=
  { id := "a", name := "x.txt", parentReference := none,
    file := true, folder := false, deleted := false }

/-- A tombstone delta entry for external id `c`. -/
def tombItemC : DeltaItem :=
  { id := "c", name := "notes.txt", parentReference := none,
    file := true, folder := false, deleted := true }

/-- A store holding a live item with external id `c`. -/
def dbC3 : Db :=
  { items := [{ id := 1, itemId := "c", driveId := "d1", name := "notes.txt",
                itemType := .FILE, path := "/notes.txt", parentId := none,
                isDeleted := false }],
    events := [], deltaStates := [⟨"d1", "T0"⟩], nextItemDbId := 2 }

/-- A one-page delta feed containing only the tombstone for `c`. -/
def pageC3 : DeltaPage :=
  { items := [tombItemC], deltaLink := some "T1", nextLink := none }

/-- The store after processing `pageC3` once against `dbC3`. -/
def dbC3mid : Db := passOutcomeDb (processDelta [pageC3] none "d1" dbC3)

/-- A store in which item `c` is already soft-deleted. -/
def dbC4 : Db :=
  { items := [{ id := 1, itemId := "c", driveId := "d1", name := "notes.txt",
                itemType := .FILE, path := "/notes.txt", parentId := none,
                isDeleted := true }],
    events := [], deltaStates := [], nextItemDbId := 2 }

/-- A store holding the folder `Docs` (external id `a`). -/
def dbDocs : Db :=
  { items := [{ id := 1, itemId := "a", driveId := "d1", name := "Docs",
                itemType := .FOLDER, path := "/Docs", parentId := none,
                isDeleted := false }],
    events := [], deltaStates := [], nextItemDbId := 2 }

/-- An observed file `draft.txt` whose parent is the folder `Docs`. -/
def itemDraft : DeltaItem :=
  { id := "b", name := "draft.txt", parentReference := some ⟨some "a", none⟩,
    file := true, folder := false, deleted := false }

/-- A store whose item `a` is soft-deleted. -/
def dbDel : Db :=
  { items := [{ id := 1, itemId := "a", driveId := "d1", name := "old.txt",
                itemType := .FILE, path := "/old.txt", parentId := none,
                isDeleted := true }],
    events := [], deltaStates := [], nextItemDbId := 2 }

/-- A live (non-tombstone) observation of `a` under a new name. -/
def itemRe : DeltaItem :=
  { id := "a", name := "new.txt", parentReference := none,
    file := true, folder := false, deleted := false }

/-- A live observation of `a` with its stored name unchanged. -/
def itemSame : DeltaItem :=
  { id := "a", name := "old.txt", parentReference := none,
    file := true, folder := false, deleted := false }

/-- A stored root-level file: no stored parent (SQL NULL). -/
def rootRec : DriveItemRec :=
  { id := 1, itemId := "r1", driveId := "d1", name := "x.txt",
    itemType := .FILE, path := "/x.txt", parentId := none,
    isDeleted := false }

/-- A store holding only the root-level file `rootRec`. -/
def dbRoot : Db :=
  { items := [rootRec], events := [], deltaStates := [], nextItemDbId := 2 }

/-- A re-observation of `r1` with the same name and no resolvable parent
(no `parentReference`, so the resolved parent is `undefined`). -/
def itemRootSame : DeltaItem :=
  { id := "r1", name := "x.txt", parentReference := none,
    file := true, folder := false, deleted := false }

/-- A subscription world whose provider record for `sub-abc` expires one
hour after `now = 0`, with the matching local row stored under numeric
id 7. -/
def w8 : SubWorld :=
  { graphSubs := [{ id := "sub-abc", resource := "/drives/d1/root",
                    changeType := "updated", clientState := "cs",
                    notificationUrl := "https://notify.example",
                    expirationDateTime := 3600000 }],
    dbSubs := [{ id := 7, subscriptionId := "sub-abc",
                 resource := "/drives/d1/root", clientState := "cs",
                 expiration := 3600000 }],
    freshGraphId := "sub-new", nextDbId := 8 }

/-- A stored row used to instantiate the change-classification table. -/
def exW : DriveItemRec :=
  { id := 1, itemId := "b", driveId := "d1", name := "old",
    itemType := .FILE, path := "/old", parentId := some 1, isDeleted := false }

/-- An observation of `b` with a new name (and, with parent id `some 2`,
a new parent). -/
def itW : DeltaItem :=
  { id := "b", name := "new", parentReference := none,
    file := true, folder := false, deleted := false }

/-- A one-page provider trace ending in a delta link `T1`. -/
def pagesW1 : List DeltaPage :=
  [{ items := [], deltaLink := some "T1", nextLink := none }]

/-- A one-page provider trace with one item and delta link `T1`. -/
def pagesW2 : List DeltaPage :=
  [{ items := [itemA], deltaLink := some "T1", nextLink := none }]

/-- The result of the successful pass over `pagesW1` from `dbEmpty`. -/
def resW1 : DeltaProcessingResult :=
  { itemsProcessed := 0, changesDetected := 0, deltaToken := "T1" }

/-- The store after the successful pass over `pagesW1` from `dbEmpty`. -/
def dbW1 : Db :=
  { items := [], events := [], deltaStates := [⟨"d1", "T1"⟩], nextItemDbId := 1 }

/-- A world whose credential gate is disabled. -/
def wDisabled : World :=
  { env := { processDeltaEnabled := false, tokenValid := true },
    db := dbC3, graphCalls := 0 }

/-- A non-terminal page carrying a next link. -/
def c10ps : List DeltaPage :=
  [{ items := [itemA], deltaLink := none, nextLink := some "skip1" }]

/-- A terminal page carrying neither a next link nor a delta link. -/
def c10p : DeltaPage := { items := [], deltaLink := none, nextLink := none }

/-! Preservation lemmas for the repository operations. -/

@[simp] theorem insertEvent_items (e : ChangeEventRec) (db : Db) :
    (insertEvent e db).items = db.items := rfl

@[simp] theorem insertEvent_deltaStates (e : ChangeEventRec) (db : Db) :
    (insertEvent e db).deltaStates = db.deltaStates := rfl

@[simp] theorem markAsDeleted_events (i : Nat) (db : Db) :
    (markAsDeleted i db).events = db.events := rfl

@[simp] theorem markAsDeleted_deltaStates (i : Nat) (db : Db) :
    (markAsDeleted i db).deltaStates = db.deltaStates := rfl

@[simp] theorem upsertItem_snd_events (d : UpsertItemData) (db : Db) :
    (upsertItem d db).2.events = db.events := by
  unfold upsertItem
  split <;> rfl

@[simp] theorem upsertItem_snd_deltaStates (d : UpsertItemData) (db : Db) :
    (upsertItem d db).2.deltaStates = db.deltaStates := by
  unfold upsertItem
  split <;> rfl

@[simp] theorem processDeltaItem_deltaStates (it : DeltaItem) (dr : String)
    (db : Db) : (processDeltaItem it dr db).2.deltaStates = db.deltaStates := by
  unfold processDeltaItem
  dsimp only
  repeat' split
  all_goals simp

/-- `upsertUpdateRow` keeps the row's external id. -/
@[simp] theorem upsertUpdateRow_itemId (d : UpsertItemData) (r : DriveItemRec) :
    (upsertUpdateRow d r).itemId = r.itemId := by
  unfold upsertUpdateRow
  split <;> rfl

/-- `upsertUpdateRow` keeps the row's deleted flag. -/
@[simp] theorem upsertUpdateRow_isDeleted (d : UpsertItemData) (r : DriveItemRec) :
    (upsertUpdateRow d r).isDeleted = r.isDeleted := by
  unfold upsertUpdateRow
  split <;> rfl

/-- Failing before the first write leaves the store untouched. -/
theorem afterWrites_zero (it : DeltaItem) (dr : String) (db : Db) :
    processDeltaItemAfterWrites it dr db 0 = db := by
  unfold processDeltaItemAfterWrites
  dsimp only
  repeat' split
  all_goals simp_all

/-- Failing after the first write (the Item mutation) leaves the event
log untouched. -/
theorem afterWrites_one_events (it : DeltaItem) (dr : String) (db : Db) :
    (processDeltaItemAfterWrites it dr db 1).events = db.events := by
  unfold processDeltaItemAfterWrites
  dsimp only
  repeat' split
  all_goals simp_all

/-- With both writes performed the crash semantics coincides with the
completed step. -/
theorem afterWrites_two (it : DeltaItem) (dr : String) (db : Db) (k : Nat) :
    processDeltaItemAfterWrites it dr db (k + 2) =
      (processDeltaItem it dr db).2 := by
  unfold processDeltaItemAfterWrites processDeltaItem
  dsimp only
  repeat' split
  all_goals simp_all

/-- A pass whose item processing fails fatally leaves the `DeltaState`
rows as they were before the pass. -/
theorem runItems_error_deltaStates (dr : String) (failAt : Option Nat) :
    ∀ (items : List DeltaItem) (idx : Nat) (db : Db) (c : Nat) (db2 : Db),
      runItems dr failAt items idx db c = .error db2 →
      db2.deltaStates = db.deltaStates := by
  intro items
  induction items with
  | nil =>
      intro idx db c db2 h
      simp [runItems] at h
  | cons item rest ih =>
      intro idx db c db2 h
      unfold runItems at h
      split at h
      · cases h
        rfl
      · have h2 := ih (idx + 1) (processDeltaItem item dr db).2 _ db2 h
        rw [h2, processDeltaItem_deltaStates]

/-- Without injected failures the item loop succeeds and never touches
the `DeltaState` rows. -/
theorem runItems_none_ok (dr : String) :
    ∀ (items : List DeltaItem) (idx : Nat) (db : Db) (c : Nat),
      ∃ out, runItems dr none items idx db c = .ok out ∧
        out.1.deltaStates = db.deltaStates := by
  intro items
  induction items with
  | nil =>
      intro idx db c
      exact ⟨(db, c), rfl, rfl⟩
  | cons item rest ih =>
      intro idx db c
      obtain ⟨out, h1, h2⟩ :=
        ih (idx + 1) (processDeltaItem item dr db).2
          (c + if (processDeltaItem item dr db).1.isSome then 1 else 0)
      refine ⟨out, ?_, h2.trans (processDeltaItem_deltaStates item dr db)⟩
      unfold runItems
      rw [if_neg (by simp)]
      exact h1

/-- `deltaTokenUpdateRow` keeps the row's drive id. -/
@[simp] theorem deltaTokenUpdateRow_driveId (d k : String) (s : DeltaStateRec) :
    (deltaTokenUpdateRow d k s).driveId = s.driveId := by
  unfold deltaTokenUpdateRow
  split <;> rfl

/-- On a matching row `deltaTokenUpdateRow` stores the new token. -/
theorem deltaTokenUpdateRow_pos (d k : String) (s : DeltaStateRec)
    (hs : (s.driveId == d) = true) :
    deltaTokenUpdateRow d k s = { s with deltaToken := k } := by
  unfold deltaTokenUpdateRow
  rw [if_pos hs]

/-- On a non-matching row `deltaTokenUpdateRow` is the identity. -/
theorem deltaTokenUpdateRow_neg (d k : String) (s : DeltaStateRec)
    (hs : (s.driveId == d) = false) :
    deltaTokenUpdateRow d k s = s := by
  unfold deltaTokenUpdateRow
  rw [if_neg (by simp [hs])]

/-- After a token update keyed by `driveId` on rows that contain a match,
the first matching row carries the new token. -/
theorem find_map_token (driveId link : String) :
    ∀ l : List DeltaStateRec, l.any (fun s => s.driveId == driveId) = true →
      ((l.map (deltaTokenUpdateRow driveId link)).find?
        (fun s => s.driveId == driveId)).map (fun s => s.deltaToken) =
        some link := by
  intro l
  induction l with
  | nil => simp
  | cons s t ih =>
      intro h
      cases hs : (s.driveId == driveId) with
      | true =>
          rw [List.map_cons, deltaTokenUpdateRow_pos driveId link s hs,
            List.find?_cons_of_pos _ (by simpa using hs)]
          rfl
      | false =>
          simp only [List.any_cons, hs, Bool.false_or] at h
          rw [List.map_cons, deltaTokenUpdateRow_neg driveId link s hs,
            List.find?_cons_of_neg _ (by simp [hs])]
          exact ih h

/-- Appending a fresh row for `driveId` to rows without a match makes the
lookup return the new token. -/
theorem find_append_token (driveId link : String) :
    ∀ l : List DeltaStateRec, l.any (fun s => s.driveId == driveId) = false →
      (((l ++ [DeltaStateRec.mk driveId link]).find?
        (fun s => s.driveId == driveId)).map (fun s => s.deltaToken)) =
        some link := by
  intro l
  induction l with
  | nil =>
      intro _
      rw [List.nil_append, List.find?_cons_of_pos _ (by simp)]
      rfl
  | cons s t ih =>
      intro h
      cases hs : (s.driveId == driveId) with
      | true => simp [List.any_cons, hs] at h
      | false =>
          simp only [List.any_cons, hs, Bool.false_or] at h
          rw [List.cons_append, List.find?_cons_of_neg _ (by simp [hs])]
          exact ih h

/-- `updateDeltaToken` makes `getDeltaToken` return the stored link. -/
theorem getDeltaToken_updateDeltaToken (driveId link : String) (db : Db) :
    getDeltaToken driveId (updateDeltaToken driveId link db) = some link := by
  unfold getDeltaToken updateDeltaToken findDeltaState
  by_cases h : db.deltaStates.any (fun s => s.driveId == driveId) = true
  · rw [if_pos h]
    exact find_map_token driveId link db.deltaStates h
  · rw [if_neg h]
    exact find_append_token driveId link db.deltaStates (by simpa using h)

/-- On a matching row the upsert update clause rewrites name, kind and
path, and the parent only when the argument carries a value. -/
theorem upsertUpdateRow_pos (d : UpsertItemData) (r : DriveItemRec)
    (h : (r.itemId == d.itemId) = true) :
    upsertUpdateRow d r = { r with name := d.name, itemType := d.itemType, path := d.path, parentId := match d.parentId with | some p => some p | none => r.parentId } := by
  unfold upsertUpdateRow
  rw [if_pos h]

/-- On a non-matching row the upsert update clause is the identity. -/
theorem upsertUpdateRow_neg (d : UpsertItemData) (r : DriveItemRec)
    (h : (r.itemId == d.itemId) = false) :
    upsertUpdateRow d r = r := by
  unfold upsertUpdateRow
  rw [if_neg (by simp [h])]

/-- `upsert` on an unknown external id appends a fresh row. -/
theorem upsertItem_items_none (d : UpsertItemData) (db : Db)
    (h : db.items.find? (fun r => r.itemId == d.itemId) = none) :
    (upsertItem d db).2.items = db.items ++
      [{ id := db.nextItemDbId, itemId := d.itemId, driveId := d.driveId,
         name := d.name, itemType := d.itemType, path := d.path,
         parentId := d.parentId, isDeleted := false }] := by
  unfold upsertItem
  rw [h]

/-- `upsert` on a known external id maps the update clause over the rows. -/
theorem upsertItem_items_some (d : UpsertItemData) (db : Db) (r : DriveItemRec)
    (h : db.items.find? (fun r => r.itemId == d.itemId) = some r) :
    (upsertItem d db).2.items = db.items.map (upsertUpdateRow d) := by
  unfold upsertItem
  rw [h]

/-- Looking an external id up after mapping the upsert update clause is
the mapped lookup (the clause preserves external ids). -/
theorem find?_map_upsertUpdateRow (d : UpsertItemData) (s : String) :
    ∀ l : List DriveItemRec,
      (l.map (upsertUpdateRow d)).find? (fun x => x.itemId == s) =
        (l.find? (fun x => x.itemId == s)).map (upsertUpdateRow d) := by
  intro l
  induction l with
  | nil => rfl
  | cons x t ih =>
      cases hx : (x.itemId == s) with
      | true =>
          rw [List.map_cons, List.find?_cons_of_pos _ (by simpa using hx),
            List.find?_cons_of_pos _ (by simpa using hx)]
          rfl
      | false =>
          rw [List.map_cons, List.find?_cons_of_neg _ (by simp [hx]),
            List.find?_cons_of_neg _ (by simp [hx]), ih]

/-- The pagination loop ends with the terminal page's delta link when all
earlier pages carry next links and the terminal page does not. -/
theorem qdcGo_snd (p : DeltaPage) :
    ∀ (ps : List DeltaPage) (acc : List DeltaItem),
      (∀ q ∈ ps, q.nextLink.isSome = true) → p.nextLink = none →
      (queryDeltaCompleteGo (ps ++ [p]) acc).2 = p.deltaLink := by
  intro ps
  induction ps with
  | nil =>
      intro acc _ hn
      rw [List.nil_append]
      unfold queryDeltaCompleteGo
      dsimp only
      rw [hn]
      cases hdl : p.deltaLink <;> simp
  | cons q t ih =>
      intro acc hps hn
      have hq := hps q (List.mem_cons_self q t)
      rw [List.cons_append]
      unfold queryDeltaCompleteGo
      dsimp only
      rw [if_pos hq]
      exact ih _ (fun r hr => hps r (List.mem_cons_of_mem q hr)) hn

/-! Claim theorems. -/

/-- C2 (counterexample): the apply-one-item step does not commit the Item
upsert and the ChangeEvent insert atomically — stopping after the first
commit of a CREATE step yields a reachable post-state whose items were
mutated while the event log is unchanged, contradicting the claim that no
such post-state is reachable. -/
theorem item_write_visible_without_event :
    (processDeltaItemAfterWrites itemA "d1" dbEmpty 1).items ≠ dbEmpty.items ∧
    (processDeltaItemAfterWrites itemA "d1" dbEmpty 1).events = dbEmpty.events := by
  decide

/-- C3: replay is not idempotent.  Processing the one-page feed `pageC3`
(the tombstone of stored item `c`) once succeeds, and re-processing the
identical page against the resulting store detects one further change and
appends a second DELETE event, where the claim requires zero new
ChangeEvents on the second pass. -/
theorem replay_of_tombstone_page_emits_second_delete :
    passSucceeded (processDelta [pageC3] none "d1" dbC3) = true ∧
    passSucceeded (processDelta [pageC3] none "d1" dbC3mid) = true ∧
    passChanges (processDelta [pageC3] none "d1" dbC3mid) = 1 ∧
    (passOutcomeDb (processDelta [pageC3] none "d1" dbC3mid)).events ≠
      dbC3mid.events := by
  decide

/-- C4: a tombstone for an item whose stored row already has
`isDeleted = true` is not a no-op — the step reports a detected change
and appends a (second) DELETE event, where the claim requires no event
when the stored item already has deleted=true. -/
theorem tombstone_of_deleted_item_emits_extra_delete :
    (processDeltaItem tombItemC "d1" dbC4).2.events =
      [{ driveItemId := 1, eventType := .DELETE, oldName := some "notes.txt",
         newName := none, oldParentId := none, newParentId := none }] ∧
    ((processDeltaItem tombItemC "d1" dbC4).1).isSome = true := by
  decide

/-- C6 (counterexample): a file `draft.txt` observed under the stored
folder `Docs` is stored with path `/draft.txt`, not the full parent-chain
path `/Docs/draft.txt` required by the claim. -/
theorem stored_path_ignores_parent_chain :
    (findByItemId "b" (processDeltaItem itemDraft "d1" dbDocs).2).map
      (fun r => r.path) = some "/draft.txt" ∧
    some "/draft.txt" ≠ some "/Docs/draft.txt" := by
  decide

/-- C7 (counterexample): a live (non-tombstone) observation of item `a`,
whose stored row has `isDeleted = true`, leaves the row soft-deleted —
after the step the stored item still has `isDeleted = true`, where the
claim requires the deleted flag to be cleared. -/
theorem undelete_not_performed :
    (findByItemId "a" (processDeltaItem itemRe "d1" dbDel).2).map
      (fun r => r.isDeleted) = some true := by
  decide

/-- C8: in the renewal branch (provider record expiring within 24 hours)
`ensureSubscription` fails instead of renewing and updating the local
record: the source passes the numeric database id to
`WebhookSubscriptionRepository.updateExpiration`, whose Prisma filter is
on the string provider subscription id, so the local update matches no
row and the call is rejected. -/
theorem renewal_branch_fails_on_wrong_key :
    ensureSubscription "https://notify.example" "d1" 0 "cs" w8 = none := by
  decide

/-- C2 (amended): the apply-one-item step issues the Item mutation and
the ChangeEvent insert as two separate sequential commits, the Item
mutation first: in every reachable post-state in which the ChangeEvent
log changed, the full step (including the Item mutation) has committed —
so an Item mutation without its event is reachable, but never an event
without its Item mutation. -/
theorem event_insert_commits_after_item_write (it : DeltaItem) (dr : String)
    (db : Db) (k : Nat)
    (h : (processDeltaItemAfterWrites it dr db k).events ≠ db.events) :
    processDeltaItemAfterWrites it dr db k = (processDeltaItem it dr db).2 := by
  match k with
  | 0 => exact absurd (by rw [afterWrites_zero]) h
  | 1 => exact absurd (afterWrites_one_events it dr db) h
  | (n + 2) => exact afterWrites_two it dr db n

/-- Witness for the amended C2 theorem at a concrete crash point with a
changed event log. -/
theorem event_insert_commits_after_item_write_witness :
    processDeltaItemAfterWrites itemA "d1" dbEmpty 2 =
      (processDeltaItem itemA "d1" dbEmpty).2 :=
  event_insert_commits_after_item_write itemA "d1" dbEmpty 2 (by decide)

/-- C9: a reconciliation-worker invocation that observes the credential
gate disabled returns immediately: the world (cursor, items, event log,
provider-call count) is returned unchanged. -/
theorem gate_disabled_worker_is_noop (pages : List DeltaPage)
    (failAt : Option Nat) (driveId : String) (w : World)
    (h : w.env.processDeltaEnabled = false) :
    processDeltaBatch pages failAt driveId w = .ok w := by
  unfold processDeltaBatch
  rw [h]
  rfl

/-- Witness for the gate-disabled no-op theorem at a concrete world. -/
theorem gate_disabled_worker_is_noop_witness :
    processDeltaBatch [pageC3] none "d1" wDisabled = .ok wDisabled :=
  gate_disabled_worker_is_noop [pageC3] none "d1" wDisabled rfl

/-- C5 (counterexample): a stored root-level item (parent NULL)
re-observed with the same name and no resolvable parent (parent
undefined) is classified as a parent change — the code emits a MOVE
event with all parent fields absent and the step appends it to the log,
where the claimed table ("neither changed → no event") requires no
event: in JS `null !== undefined`, so the claimed table fails on the
code. -/
theorem same_item_reobserved_classified_as_move :
    detectChangeType rootRec itemRootSame
      (resolveParentId itemRootSame dbRoot) =
      some { itemId := "r1", eventType := .MOVE, oldName := none,
             newName := none, oldParentId := none, newParentId := none } ∧
    (processDeltaItem itemRootSame "d1" dbRoot).2.events ≠ dbRoot.events := by
  decide

/-- The source's strict parent comparison is false exactly when both the
stored and the resolved parent carry the same number. -/
theorem parentStrictNe_eq_false_iff (st rs : Option Nat) :
    parentStrictNe st rs = false ↔ ∃ n, st = some n ∧ rs = some n := by
  cases st with
  | none => simp [parentStrictNe]
  | some m =>
      cases rs with
      | none => simp [parentStrictNe]
      | some n =>
          constructor
          · intro h
            have hmn : m = n := by simpa [parentStrictNe] using h
            exact ⟨m, rfl, by rw [hmn]⟩
          · rintro ⟨k, hk1, hk2⟩
            have h1 : m = k := Option.some.inj hk1
            have h2 : n = k := Option.some.inj hk2
            simp [parentStrictNe, h1, h2]

/-- C5 (amended): for a live observed item whose external id exists in
the store, the event kind follows the table with parent-change computed
as the source's JS strict inequality (a parent is unchanged only when
the stored parent and the resolved parent carry the same number; two
absent parents count as changed because `null !== undefined`) — name
and parent changed yields MOVE with all four old/new fields populated;
only name changed yields RENAME; only parent changed yields MOVE;
neither changed yields no event and the step leaves the store
untouched.  In particular both parents absent is always classified as a
parent change. -/
theorem detect_change_type_strict_table (ex : DriveItemRec) (it : DeltaItem)
    (pid : Option Nat) (dr : String) (db : Db) :
    (ex.name ≠ it.name → (∀ n : Nat, ¬(ex.parentId = some n ∧ pid = some n)) →
      detectChangeType ex it pid = some { itemId := it.id, eventType := .MOVE, oldName := some ex.name, newName := some it.name, oldParentId := ex.parentId, newParentId := pid }) ∧
    (ex.name ≠ it.name → (∃ n : Nat, ex.parentId = some n ∧ pid = some n) →
      detectChangeType ex it pid = some { itemId := it.id, eventType := .RENAME, oldName := some ex.name, newName := some it.name, oldParentId := none, newParentId := none }) ∧
    (ex.name = it.name → (∀ n : Nat, ¬(ex.parentId = some n ∧ pid = some n)) →
      detectChangeType ex it pid = some { itemId := it.id, eventType := .MOVE, oldName := none, newName := none, oldParentId := ex.parentId, newParentId := pid }) ∧
    (ex.name = it.name → (∃ n : Nat, ex.parentId = some n ∧ pid = some n) →
      detectChangeType ex it pid = none) ∧
    (ex.parentId = none → pid = none →
      parentStrictNe ex.parentId pid = true) ∧
    (it.deleted = false → findByItemId it.id db = some ex →
      detectChangeType ex it (resolveParentId it db) = none →
      processDeltaItem it dr db = (none, db)) := by
  refine ⟨?_, ?_, ?_, ?_, ?_, ?_⟩
  · intro h1 h2
    have b1 : (ex.name != it.name) = true := bne_iff_ne.mpr h1
    have b2 : parentStrictNe ex.parentId pid = true := by
      cases hb : parentStrictNe ex.parentId pid with
      | true => rfl
      | false =>
          obtain ⟨n, hn1, hn2⟩ := (parentStrictNe_eq_false_iff _ _).mp hb
          exact absurd ⟨hn1, hn2⟩ (h2 n)
    unfold detectChangeType
    dsimp only
    rw [b1, b2]
    rfl
  · intro h1 h2
    have b1 : (ex.name != it.name) = true := bne_iff_ne.mpr h1
    have b2 : parentStrictNe ex.parentId pid = false :=
      (parentStrictNe_eq_false_iff _ _).mpr h2
    unfold detectChangeType
    dsimp only
    rw [b1, b2]
    rfl
  · intro h1 h2
    have b1 : (ex.name != it.name) = false := by simp [h1]
    have b2 : parentStrictNe ex.parentId pid = true := by
      cases hb : parentStrictNe ex.parentId pid with
      | true => rfl
      | false =>
          obtain ⟨n, hn1, hn2⟩ := (parentStrictNe_eq_false_iff _ _).mp hb
          exact absurd ⟨hn1, hn2⟩ (h2 n)
    unfold detectChangeType
    dsimp only
    rw [b1, b2]
    rfl
  · intro h1 h2
    have b1 : (ex.name != it.name) = false := by simp [h1]
    have b2 : parentStrictNe ex.parentId pid = false :=
      (parentStrictNe_eq_false_iff _ _).mpr h2
    unfold detectChangeType
    dsimp only
    rw [b1, b2]
    rfl
  · intro h1 h2
    rw [h1, h2]
    rfl
  · intro hdel hfind hdet
    have hdel2 : ¬ (it.deleted = true) := by simp [hdel]
    unfold processDeltaItem
    dsimp only
    rw [if_neg hdel2, hfind]
    dsimp only
    rw [hdet]

/-- Witness for the strict change-classification table: a concrete
rename plus reparent classifies as MOVE with all four fields populated. -/
theorem detect_change_type_strict_table_witness :
    detectChangeType exW itW (some 2) = some { itemId := "b", eventType := .MOVE, oldName := some "old", newName := some "new", oldParentId := some 1, newParentId := some 2 } :=
  (detect_change_type_strict_table exW itW (some 2) "d1" dbEmpty).1
    (by decide) (by intro n hn; simp [exW] at hn; omega)

/-- C6 (amended): every Item row written by the apply-one-item step gets
path `"/" ++ name` of the observed item itself — the parent chain is not
walked (`buildPath` is the source's acknowledged simplification). -/
theorem stored_path_is_slash_self_name (it : DeltaItem) (dr : String)
    (db : Db) (hdel : it.deleted = false) :
    ∀ r ∈ (processDeltaItem it dr db).2.items, r ∉ db.items →
      r.path = "/" ++ it.name := by
  intro r hr hnot
  have hdel' : ¬ (it.deleted = true) := by simp [hdel]
  unfold processDeltaItem at hr
  dsimp only at hr
  rw [if_neg hdel'] at hr
  cases hfind : findByItemId it.id db with
  | none =>
      rw [hfind] at hr
      dsimp only at hr
      rw [insertEvent_items, upsertItem_items_none _ _ (by exact hfind)] at hr
      rcases List.mem_append.mp hr with hin | hnew
      · exact absurd hin hnot
      · rw [List.mem_singleton.mp hnew]
        rfl
  | some ex =>
      rw [hfind] at hr
      dsimp only at hr
      cases hdet : detectChangeType ex it (resolveParentId it db) with
      | none =>
          rw [hdet] at hr
          exact absurd hr hnot
      | some ch =>
          rw [hdet] at hr
          dsimp only at hr
          rw [insertEvent_items,
            upsertItem_items_some _ _ ex (by exact hfind)] at hr
          obtain ⟨x, hx, hxr⟩ := List.mem_map.mp hr
          cases hxid : (x.itemId == it.id) with
          | true =>
              rw [← hxr, upsertUpdateRow_pos _ _ hxid]
              rfl
          | false =>
              rw [← hxr, upsertUpdateRow_neg _ _ hxid] at hnot ⊢
              exact absurd hx hnot

/-- Witness for the amended C6 theorem: the row created for `draft.txt`
under the stored folder `Docs` carries path `/draft.txt`. -/
theorem stored_path_is_slash_self_name_witness :
    ({ id := 2, itemId := "b", driveId := "d1", name := "draft.txt", itemType := .FILE, path := "/draft.txt", parentId := some 1, isDeleted := false } : DriveItemRec).path = "/" ++ "draft.txt" :=
  stored_path_is_slash_self_name itemDraft "d1" dbDocs rfl
    { id := 2, itemId := "b", driveId := "d1", name := "draft.txt", itemType := .FILE, path := "/draft.txt", parentId := some 1, isDeleted := false }
    (by decide) (by decide)

/-- C7 (amended): the apply-one-item step never clears the deleted flag:
a live (non-tombstone) observation of an item whose stored row has
`isDeleted = true` leaves the stored row soft-deleted (only name, kind,
path and parent are rewritten, and only when a change is detected). -/
theorem deleted_flag_never_cleared (it : DeltaItem) (dr : String) (db : Db)
    (r : DriveItemRec) (hdel : it.deleted = false)
    (hfind : findByItemId it.id db = some r) (hr : r.isDeleted = true) :
    (findByItemId it.id (processDeltaItem it dr db).2).map
      (fun x => x.isDeleted) = some true := by
  have hdel' : ¬ (it.deleted = true) := by simp [hdel]
  unfold processDeltaItem
  dsimp only
  rw [if_neg hdel', hfind]
  dsimp only
  cases hdet : detectChangeType r it (resolveParentId it db) with
  | none =>
      dsimp only
      rw [hfind]
      simp [hr]
  | some ch =>
      dsimp only
      unfold findByItemId
      rw [insertEvent_items, upsertItem_items_some _ _ r (by exact hfind),
        find?_map_upsertUpdateRow]
      have hfind' : db.items.find? (fun x => x.itemId == it.id) = some r :=
        hfind
      rw [hfind']
      simp [upsertUpdateRow_isDeleted, hr]

/-- Witness for the never-cleared deleted flag at a concrete soft-deleted
row observed live with an unchanged name. -/
theorem deleted_flag_never_cleared_witness :
    (findByItemId "a" (processDeltaItem itemSame "d1" dbDel).2).map
      (fun x => x.isDeleted) = some true :=
  deleted_flag_never_cleared itemSame "d1" dbDel
    { id := 1, itemId := "a", driveId := "d1", name := "old.txt", itemType := .FILE, path := "/old.txt", parentId := none, isDeleted := true }
    rfl (by decide) rfl

/-- C10: when the paginated delta query ends on a page that carries
neither a next link nor a final delta link, the pagination result has no
delta link, the pass still completes without error, the returned delta
token is the empty string, and the stored cursor rows are unchanged. -/
theorem missing_final_link_preserves_cursor (ps : List DeltaPage)
    (p : DeltaPage) (driveId : String) (db : Db)
    (hps : ∀ q ∈ ps, q.nextLink.isSome = true) (hn : p.nextLink = none)
    (hd : p.deltaLink = none) :
    (queryDeltaComplete (ps ++ [p])).deltaLink = none ∧
    ∃ res db2, processDelta (ps ++ [p]) none driveId db = .ok (res, db2) ∧
      res.deltaToken = "" ∧ db2.deltaStates = db.deltaStates := by
  have hql : (queryDeltaComplete (ps ++ [p])).deltaLink = none := by
    have h := qdcGo_snd p ps [] hps hn
    unfold queryDeltaComplete
    dsimp only
    rw [h, hd]
  refine ⟨hql, ?_⟩
  obtain ⟨out, hok, hds⟩ :=
    runItems_none_ok driveId (queryDeltaComplete (ps ++ [p])).items 0 db 0
  refine ⟨{ itemsProcessed := (queryDeltaComplete (ps ++ [p])).items.length, changesDetected := out.2, deltaToken := "" }, out.1, ?_, rfl, hds⟩
  unfold processDelta
  dsimp only
  rw [hok, hql]
  rfl

/-- Witness for the missing-final-link theorem at a concrete two-page
trace whose terminal page carries no link, over a store with a cursor. -/
theorem missing_final_link_preserves_cursor_witness :
    (queryDeltaComplete (c10ps ++ [c10p])).deltaLink = none ∧
    ∃ res db2, processDelta (c10ps ++ [c10p]) none "d1" dbC3 = .ok (res, db2) ∧
      res.deltaToken = "" ∧ db2.deltaStates = dbC3.deltaStates :=
  missing_final_link_preserves_cursor c10ps c10p "d1" dbC3
    (by decide) rfl rfl

/-- C1: the cursor stored for a drive after a reconciliation pass —
if the pass returns successfully and the completed pagination produced a
final delta link, the stored cursor equals that link; if an item fails
fatally during the pass, the pass errors with the cursor rows unchanged
from their pre-pass value. -/
theorem cursor_advance_iff_pass_outcome (pages : List DeltaPage)
    (failAt : Option Nat) (driveId d : String) (db : Db) :
    (∀ res db2, processDelta pages failAt driveId db = .ok (res, db2) →
      (queryDeltaComplete pages).deltaLink = some d →
      getDeltaToken driveId db2 = some d) ∧
    (∀ db2, processDelta pages failAt driveId db = .error db2 →
      db2.deltaStates = db.deltaStates) := by
  constructor
  · intro res db2 hok hdl
    unfold processDelta at hok
    dsimp only at hok
    rw [hdl] at hok
    cases hrun : runItems driveId failAt (queryDeltaComplete pages).items
        0 db 0 with
    | error dbe =>
        rw [hrun] at hok
        simp at hok
    | ok out =>
        rw [hrun] at hok
        dsimp only at hok
        have h2 : updateDeltaToken driveId d out.1 = db2 := by
          injection hok with h
          exact congrArg Prod.snd h
        rw [← h2]
        exact getDeltaToken_updateDeltaToken driveId d out.1
  · intro db2 herr
    unfold processDelta at herr
    dsimp only at herr
    cases hrun : runItems driveId failAt (queryDeltaComplete pages).items
        0 db 0 with
    | error dbe =>
        rw [hrun] at herr
        injection herr with h
        rw [← h]
        exact runItems_error_deltaStates driveId failAt
          (queryDeltaComplete pages).items 0 db 0 dbe hrun
    | ok out =>
        rw [hrun] at herr
        simp at herr

/-- Witness for the cursor theorem: a successful pass stores the final
link `T1`, and a pass whose first item fails fatally leaves the cursor
rows of the empty store unchanged. -/
theorem cursor_advance_iff_pass_outcome_witness :
    getDeltaToken "d1" dbW1 = some "T1" ∧
    dbEmpty.deltaStates = dbEmpty.deltaStates :=
  ⟨(cursor_advance_iff_pass_outcome pagesW1 none "d1" "T1" dbEmpty).1
      resW1 dbW1 rfl rfl,
   (cursor_advance_iff_pass_outcome pagesW2 (some 0) "d1" "T1" dbEmpty).2
      dbEmpty rfl⟩

end OnedriveAudit
